import Mathlib

/-!
A shallow embedding of the routing / security-gating core of the
multi-agent-ai-assistant repository (src/agents/security_agent.py,
src/agents/chat_agent.py, src/agents/controller_agent.py), together with
theorems settling the behavioural claims about it.

Remote collaborators (the AIRS threat-scan HTTP service, the LLM completion
provider, the individual query handlers other than the RAG path, and the
clock) are modelled as oracle inputs supplied per call; the control flow,
parsing, state updates and string manipulation of the repository's own code
are translated directly from the source.
-/

/-! ## String helpers (Python `in`, `lower`, `upper`, `strip` analogues) -/

/-- Does `pat` occur as a prefix of some suffix of `l`? -/
def listContainsSub (pat : List Char) : List Char → Bool
  | [] => pat.isEmpty
  | l@(_ :: rest) => pat.isPrefixOf l || listContainsSub pat rest

/-- Python `pat in s` substring test. -/
def strContains (s pat : String) : Bool :=
  listContainsSub pat.toList s.toList

/-- Python `s.lower()` (ASCII case mapping, computed characterwise). -/
def strLower (s : String) : String :=
  String.mk (s.data.map Char.toLower)

/-- Python `s.upper()` (ASCII case mapping, computed characterwise). -/
def strUpper (s : String) : String :=
  String.mk (s.data.map Char.toUpper)

/-- Python `s.strip()`: drop leading and trailing whitespace. -/
def strStrip (s : String) : String :=
  String.mk (((s.data.dropWhile Char.isWhitespace).reverse.dropWhile
    Char.isWhitespace).reverse)

/-! ## Security agent data model (security_agent.py) -/

/-- `threats[i]` entry of the remote payload: only its `"type"` key is read
(`threats[0].get("type")`), which may be absent. -/
structure ThreatItem where
  ttype : Option String := none
deriving Repr, DecidableEq

/-- The `details` sub-object of the remote AIRS payload:
`category`, `action`, and the `prompt_detected` / `response_detected` maps
(modelled as insertion-ordered association lists whose values are the Python
truthiness of the original values). -/
structure AirsDetails where
  category : Option String := none
  action : Option String := none
  prompt_detected : List (String × Bool) := []
  response_detected : List (String × Bool) := []
deriving Repr, DecidableEq

/-- A well-formed remote AIRS scan payload: the fields read by
`_parse_airs_response`.  `none` means the key is absent (so the `.get`
default applies). -/
structure AirsPayload where
  status : Option String := none
  threats : List ThreatItem := []
  risk_score : Option Int := none
  action : Option String := none
  details : AirsDetails := {}
deriving Repr, DecidableEq

/-- Result of the remote call body as seen by `_parse_airs_response`:
either a payload whose fields have the expected shapes, or one that makes
the parser raise (caught internally, yielding `PARSE_ERROR`). -/
inductive AirsPayloadResult where
  | wellFormed (p : AirsPayload)
  | malformed (errMsg : String)
deriving Repr, DecidableEq

/-- Outcome of the remote HTTP scan call (`_call_airs_api`), an oracle:
a payload (possibly one the parser chokes on), a non-2xx HTTP error,
a timeout, or any other exception. -/
inductive RemoteResult where
  | returns (pr : AirsPayloadResult)
  | httpError (statusCode : Nat) (errMsg : String)
  | timeout
  | raises (errMsg : String)
deriving Repr, DecidableEq

/-- The `details` attached to a scan result: error maps on the failure
paths, or the raw payload echoed back on success. -/
inductive ScanDetails where
  | errorMsg (msg : String)
  | errorHttp (msg : String) (statusCode : Nat)
  | parseErrorDetail (msg : String)
  | rawPayload (p : AirsPayload)
deriving Repr, DecidableEq

/-- The `AIRSResponse` dataclass. -/
structure AIRSResponse where
  is_safe : Bool
  threat_detected : Bool
  threat_type : Option String := none
  risk_score : Option Int := none
  action_taken : String := "ALLOW"
  scan_time_ms : Option Nat := none
  details : Option ScanDetails := none
deriving Repr, DecidableEq

/-- The scanner's statistics counters. -/
structure ScanStats where
  total_scans : Nat := 0
  threats_detected : Nat := 0
  prompts_scanned : Nat := 0
  responses_scanned : Nat := 0
  blocked_requests : Nat := 0
deriving Repr, DecidableEq

/-- Mutable state of a `SecurityAgent` instance. -/
structure SecurityAgentState where
  api_key : String
  enable_prompt_scan : Bool := true
  enable_response_scan : Bool := true
  block_on_threat : Bool := false
  timeoutSecs : Nat := 5
  enabled : Bool
  activation_status : String
  last_error : Option String := none
  stats : ScanStats := {}
deriving Repr, DecidableEq

/-- `SecurityAgent.__init__`: enabled iff a non-empty API key is given;
activation status starts at `"pending"` (or `"disabled"`). -/
def mkSecurityAgent (api_key : String) (enable_prompt_scan : Bool := true)
    (enable_response_scan : Bool := true) (block_on_threat : Bool := false)
    (timeoutSecs : Nat := 5) : SecurityAgentState :=
  if api_key = "" then
    { api_key, enable_prompt_scan, enable_response_scan, block_on_threat,
      timeoutSecs, enabled := false, activation_status := "disabled" }
  else
    { api_key, enable_prompt_scan, enable_response_scan, block_on_threat,
      timeoutSecs, enabled := true, activation_status := "pending" }

/-- Python `{**a, **b}` on the two detection maps: keys of `a` in order
(values overridden by `b` where present), then keys of `b` not in `a`. -/
def mergeDicts (a b : List (String × Bool)) : List (String × Bool) :=
  (a.map fun kv =>
    match b.find? (fun kv2 => kv2.1 == kv.1) with
    | some kv2 => (kv.1, kv2.2)
    | none => kv)
  ++ b.filter (fun kv2 => !(a.any fun kv => kv.1 == kv2.1))

/-- `_parse_airs_response`: derive threat verdict, safety, threat type and
action from a remote payload; its internal `except` yields `PARSE_ERROR`. -/
def parseAirsResponse (block_on_threat : Bool) : AirsPayloadResult → AIRSResponse
  | .malformed errMsg =>
    { is_safe := true, threat_detected := false,
      action_taken := "PARSE_ERROR",
      details := some (.parseErrorDetail errMsg) }
  | .wellFormed p =>
    let status := p.status.getD "unknown"
    let threats := p.threats
    let riskScore := p.risk_score.getD 0
    let action0 := p.action.getD "allow"
    let category := p.details.category
    let detailsAction := p.details.action
    let promptDetected := p.details.prompt_detected
    let responseDetected := p.details.response_detected
    let detectedFlags := promptDetected.map Prod.snd ++ responseDetected.map Prod.snd
    let detectedAny := detectedFlags.any id
    let action :=
      match detailsAction with
      | some a => if a = "" then action0 else a
      | none => action0
    let categorySignal :=
      match category with
      | some c => c != "" && strLower c != "benign"
      | none => false
    let threat_detected :=
      !threats.isEmpty || status == "threat" || detectedAny || categorySignal
        || (action != "" && strLower action == "block")
    let is_safe := !threat_detected || strLower action == "allow"
    let merged := mergeDicts promptDetected responseDetected
    let nextTruthyKey := (merged.find? fun kv => kv.2).map Prod.fst
    let threat_type :=
      match threats with
      | t :: _ => t.ttype
      | [] =>
        match category with
        | some c => if c = "" then nextTruthyKey else some c
        | none => nextTruthyKey
    let action_taken :=
      if threat_detected && block_on_threat then "BLOCKED"
      else if threat_detected then "LOGGED"
      else "ALLOW"
    { is_safe, threat_detected, threat_type, risk_score := some riskScore,
      action_taken, details := some (.rawPayload p) }

/-- `_update_stats`. -/
def updateStats (st : ScanStats) (r : AIRSResponse)
    (scannedPrompt scannedResponse : Bool) : ScanStats :=
  let st := { st with total_scans := st.total_scans + 1 }
  let st := if scannedPrompt then { st with prompts_scanned := st.prompts_scanned + 1 } else st
  let st := if scannedResponse then { st with responses_scanned := st.responses_scanned + 1 } else st
  let st := if r.threat_detected then { st with threats_detected := st.threats_detected + 1 } else st
  if r.action_taken = "BLOCKED" then { st with blocked_requests := st.blocked_requests + 1 } else st

/-- The "mark as activated on first successful scan" step of
`scan_interaction`: only a `"pending"` status moves to `"active"`. -/
def markActive (s : SecurityAgentState) : SecurityAgentState :=
  if s.activation_status = "pending" then
    { s with activation_status := "active", last_error := none }
  else s

/-- `scan_prompt = self.enable_prompt_scan and prompt` (empty prompt is falsy). -/
def scansPrompt (s : SecurityAgentState) (prompt : String) : Bool :=
  s.enable_prompt_scan && prompt != ""

/-- `scan_response = self.enable_response_scan and response`
(absent or empty response is falsy). -/
def scansResponse (s : SecurityAgentState) (response : Option String) : Bool :=
  s.enable_response_scan &&
    (match response with
     | some r => r != ""
     | none => false)

/-- `scan_interaction`: the full control flow, including the skip paths,
the fail-open exception handlers, the statistics update and the
`pending → active` activation transition.  `elapsedMs` is the measured
round-trip latency (an oracle); `remote` is the remote call's outcome. -/
def scanInteraction (s : SecurityAgentState) (prompt : String)
    (response : Option String) (elapsedMs : Nat) (remote : RemoteResult) :
    AIRSResponse × SecurityAgentState :=
  if !s.enabled then
    ({ is_safe := true, threat_detected := false, action_taken := "SKIP_DISABLED" }, s)
  else if !(scansPrompt s prompt) && !(scansResponse s response) then
    ({ is_safe := true, threat_detected := false, action_taken := "SKIP_CONFIG" }, s)
  else
    match remote with
    | .returns pr =>
      let parsed := parseAirsResponse s.block_on_threat pr
      let scanResult := { parsed with scan_time_ms := some elapsedMs }
      let s1 := { s with
        stats := updateStats s.stats scanResult (scansPrompt s prompt) (scansResponse s response) }
      (scanResult, markActive s1)
    | .httpError code msg =>
      let s1 :=
        if code = 403 then
          { s with activation_status := "pending_activation",
                   last_error := some "API key pending activation. Contact Palo Alto support." }
        else if code = 401 then
          { s with activation_status := "auth_failed",
                   last_error := some "Authentication failed. Check API key." }
        else
          { s with activation_status := "error",
                   last_error := some ("HTTP " ++ toString code ++ ": " ++ msg) }
      ({ is_safe := true, threat_detected := false, action_taken := "ERROR",
         details := some (.errorHttp msg code) }, s1)
    | .timeout =>
      let s1 := { s with activation_status := "timeout",
                         last_error := some ("API timeout after " ++ toString s.timeoutSecs ++ "s") }
      ({ is_safe := true, threat_detected := false, action_taken := "TIMEOUT",
         details := some (.errorMsg "API timeout") }, s1)
    | .raises msg =>
      let s1 := { s with activation_status := "error", last_error := some msg }
      ({ is_safe := true, threat_detected := false, action_taken := "ERROR",
         details := some (.errorMsg msg) }, s1)

/-- `get_safe_response`: fixed apology, with a threat-type-specific
clarification (an empty threat type is falsy, like `None`). -/
def getSafeResponse (threat_type : Option String) : String :=
  let base := "I\x27m sorry, but I cannot process this request as it may violate our security policies. "
  let generic := "Please rephrase your request or contact support if you believe this is an error."
  match threat_type with
  | some t =>
    if t = "" then base ++ generic
    else
      let specific :=
        match strLower t with
        | "prompt_injection" => "The input appears to contain prompt injection attempts."
        | "data_exfiltration" => "The request may attempt to extract sensitive data."
        | "malicious_content" => "The content has been flagged as potentially malicious."
        | "jailbreak" => "The request appears to bypass safety guidelines."
        | "pii_exposure" => "The interaction may expose personally identifiable information."
        | _ => "The request has been flagged for security review."
      base ++ specific
  | none => base ++ generic

example :
    (scanInteraction (mkSecurityAgent "key") "hello" none 3
      (.returns (.wellFormed { status := some "threat" }))).1.threat_detected = true := by
  decide

example :
    (scanInteraction (mkSecurityAgent "key") "hello" none 3 .timeout).1.action_taken
      = "TIMEOUT" := by
  decide

example :
    (scanInteraction (mkSecurityAgent "") "hello" none 3 .timeout).1.action_taken
      = "SKIP_DISABLED" := by
  decide

/-! ## Chat agent (chat_agent.py) -/

/-- Python `\w`: ASCII letters, digits and underscore. -/
def isWordChar (c : Char) : Bool :=
  c.isAlpha || c.isDigit || c == '_'

/-- One `[A-Z][a-z]+` word: a capital followed by one or more lowercase
letters (greedy), returning the matched characters and the rest. -/
def parseCapWord : List Char → Option (List Char × List Char)
  | [] => none
  | c :: rest =>
    if c.isUpper then
      let lowers := rest.takeWhile Char.isLower
      if lowers.isEmpty then none
      else some (c :: lowers, rest.drop lowers.length)
    else none

/-- The `(?:\s[A-Z][a-z]+)*` tail of the location group (greedy, fuelled by
the remaining length). -/
def capPhraseExtra : Nat → List Char → List Char
  | 0, _ => []
  | _ + 1, [] => []
  | fuel + 1, c :: rest =>
    if c.isWhitespace then
      match parseCapWord rest with
      | some (w, rest2) => c :: (w ++ capPhraseExtra fuel rest2)
      | none => []
    else []

/-- Try one alternative of `(?:in|at|for|near|of)\s+([A-Z][a-z]+(?:\s[A-Z][a-z]+)*)`
at the current position; returns the captured group on success. -/
def tryPrepAt (l : List Char) (p : List Char) : Option String :=
  if p.isPrefixOf l then
    let afterPrep := l.drop p.length
    let ws := afterPrep.takeWhile Char.isWhitespace
    if ws.isEmpty then none
    else
      let afterWs := afterPrep.drop ws.length
      match parseCapWord afterWs with
      | some (w, rest2) => some (String.mk (w ++ capPhraseExtra rest2.length rest2))
      | none => none
  else none

/-- The alternatives of the location regex, in the regex's order. -/
def locationPreps : List (List Char) :=
  ["in".toList, "at".toList, "for".toList, "near".toList, "of".toList]

/-- `re.search` of the location pattern: leftmost position wins; at a given
position the alternatives are tried in order. -/
def findLocationAux : List Char → Option String
  | [] => none
  | l@(_ :: rest) =>
    match locationPreps.findSome? (tryPrepAt l) with
    | some loc => some loc
    | none => findLocationAux rest

/-- The captured location group of
`(?:in|at|for|near|of)\s+([A-Z][a-z]+(?:\s[A-Z][a-z]+)*)`, if the query
matches. -/
def findLocation (query : String) : Option String :=
  findLocationAux query.toList

/-- `\d{4}-\d{2}-\d{2}` matched at the current position. -/
def matchIsoDateAt (l : List Char) : Option String :=
  match l with
  | a :: b :: c :: d :: h1 :: e :: f :: h2 :: g :: h :: _ =>
    if a.isDigit && b.isDigit && c.isDigit && d.isDigit && h1 == '-'
        && e.isDigit && f.isDigit && h2 == '-' && g.isDigit && h.isDigit then
      some (String.mk [a, b, c, d, h1, e, f, h2, g, h])
    else none
  | _ => none

/-- `re.search(r'(\d{4}-\d{2}-\d{2})', query)`: leftmost match. -/
def findIsoDateAux : List Char → Option String
  | [] => none
  | l@(_ :: rest) =>
    match matchIsoDateAt l with
    | some d => some d
    | none => findIsoDateAux rest

/-- First `YYYY-MM-DD`-shaped token in the query, if any. -/
def findIsoDate (query : String) : Option String :=
  findIsoDateAux query.toList

/-- Case-insensitive match of the (lowercase) word `w` at the head of `l`,
followed by a `\b` boundary. -/
def matchWordCIAt (w : List Char) (l : List Char) : Bool :=
  match w, l with
  | [], [] => true
  | [], c :: _ => !(isWordChar c)
  | _ :: _, [] => false
  | wc :: wrest, c :: rest => wc == c.toLower && matchWordCIAt wrest rest

/-- Scan for `\b<w>\b` (case-insensitive), tracking the previous character
for the left boundary. -/
def hasWordCIAux (w : List Char) (prev : Option Char) : List Char → Bool
  | [] => false
  | l@(c :: rest) =>
    ((match prev with
      | none => true
      | some pc => !(isWordChar pc)) && matchWordCIAt w l)
      || hasWordCIAux w (some c) rest

/-- `re.search(r'\b<w>\b', query, re.IGNORECASE)` for a lowercase word `w`. -/
def hasWordCI (w : String) (query : String) : Bool :=
  hasWordCIAux w.toList none query.toList

/-- One `{query, response, timestamp}` history entry. -/
structure HistoryEntry where
  query : String
  response : String
  timestamp : String
deriving Repr, DecidableEq

/-- Mutable state of a `ChatAgent` instance. -/
structure ChatAgentState where
  conversation_history : List HistoryEntry := []
  max_history : Nat := 20
  last_active_date : Option String := none
  last_active_location : String := "Singapore"
deriving Repr, DecidableEq

/-- `ChatAgent.__init__`. -/
def mkChatAgent (max_history : Nat := 20) : ChatAgentState :=
  { conversation_history := [], max_history,
    last_active_date := none, last_active_location := "Singapore" }

/-- `extract_entities`: location from the regex (falling back to the
remembered location), date from an ISO token / `today` / `tomorrow` /
`tonight` (falling back to the remembered date, then to today), updating
the remembered values exactly as the source does.  `todayStr` and
`tomorrowStr` are the clock oracle (UTC+8 "now" formatted `%Y-%m-%d`). -/
def extractEntities (st : ChatAgentState) (query todayStr tomorrowStr : String) :
    String × String × ChatAgentState :=
  let locMatch := findLocation query
  let location := locMatch.getD st.last_active_location
  let st1 :=
    match locMatch with
    | some _ => { st with last_active_location := location }
    | none => st
  let dateFound : Option String :=
    match findIsoDate query with
    | some d => some d
    | none =>
      if hasWordCI "today" query then some todayStr
      else if hasWordCI "tomorrow" query then some tomorrowStr
      else if hasWordCI "tonight" query then some todayStr
      else none
  match dateFound with
  | some d => (location, d, { st1 with last_active_date := some d })
  | none =>
    match st1.last_active_date with
    | some d => (location, d, st1)
    | none => (location, todayStr, { st1 with last_active_date := some todayStr })

/-- `add_to_history`: append, then `pop(0)` when the bound is exceeded.
`ts` is the clock oracle for the timestamp field. -/
def addToHistory (st : ChatAgentState) (query response ts : String) : ChatAgentState :=
  let hist := st.conversation_history ++ [⟨query, response, ts⟩]
  let hist := if hist.length > st.max_history then hist.drop 1 else hist
  { st with conversation_history := hist }

example :
    (extractEntities (mkChatAgent) "weather in Paris tomorrow" "2026-01-01" "2026-01-02")
      = ("Paris", "2026-01-02",
         { conversation_history := [], max_history := 20,
           last_active_date := some "2026-01-02", last_active_location := "Paris" }) := by
  decide

example : findLocation "events near New York at night" = some "New York" := by decide
example : findLocation "what should i do" = none := by decide
example : findIsoDate "events on 2025-12-31 please" = some "2025-12-31" := by decide
example : hasWordCI "today" "is TODAY ok" = true := by decide
example : hasWordCI "today" "todays news" = false := by decide

/-! ## Intent classifier and fallback handlers (controller_agent.py) -/

/-- The `valid_intents` list of `_classify_intent`, in the source's order. -/
def validIntents : List String :=
  ["RECOMMENDATION", "EVENT_QUERY_DB", "RAG_QUERY",
   "IMAGE_GENERATION", "WEATHER_QUERY", "TIME_QUERY", "UNKNOWN"]

/-- Post-processing of the raw classifier completion:
`raw.strip().upper()`, then the first member of `valid_intents` occurring
as a substring, else `"UNKNOWN"`. -/
def classifyIntentPost (raw : String) : String :=
  let intent := strUpper (strStrip raw)
  match validIntents.find? (fun v => strContains intent v) with
  | some v => v
  | none => "UNKNOWN"

/-- `_classify_intent`: the completion call is an oracle; any exception
yields `"UNKNOWN"`. -/
def classifyIntent (llm : Except String String) : String :=
  match llm with
  | .ok raw => classifyIntentPost raw
  | .error _ => "UNKNOWN"

/-- Signal words of `_looks_time_sensitive`. -/
def timeSensitiveSignals : List String :=
  ["last week", "today", "yesterday", "this week", "recent", "latest",
   "who won", "results", "score", "champion", "final"]

/-- Topic words of `_looks_time_sensitive`. -/
def timeSensitiveTopics : List String :=
  ["news", "sports", "tournament", "open", "league", "cup"]

/-- `_looks_time_sensitive`: a signal word and a topic word must co-occur
in the lowercased query. -/
def looksTimeSensitive (query : String) : Bool :=
  let lowered := strLower query
  (timeSensitiveSignals.any fun s => strContains lowered s)
    && (timeSensitiveTopics.any fun t => strContains lowered t)

/-- The capability reminder of `_handle_unknown`. -/
def capabilityReminder : String :=
  "I’m focused on a few specific services right now. Try one of these:\n"
    ++ "🎯 Recommendations → \"What should I do today?\"\n"
    ++ "📋 Events → \"Show me events today\"\n"
    ++ "📚 Future info → \"What concerts in 2026?\"\n"
    ++ "🎨 Images → \"Generate an image of...\"\n"
    ++ "☁️ Weather → \"What\x27s the weather?\"\n"
    ++ "⏰ Time → \"What time is it?\""

/-- The time-sensitive disclaimer of `_handle_unknown`. -/
def timeSensitiveNotice : String :=
  "I don’t have reliable access to live sports/news results in this demo. "
    ++ "I can still share general info if you rephrase, or you can ask about the "
    ++ "features below."

/-- The rerouting note of `_handle_unknown`. -/
def routedNote : String :=
  "Note: I couldn’t answer from the system’s data, so I routed this to the LLM."

/-- `_handle_unknown`: time-sensitive guardrail, else a brief LLM reply
(an oracle; exceptions fall back to the bare reminder), with the reroute
note when `routed_via_llm` is set. -/
def handleUnknown (query : String) (routedViaLlm : Bool)
    (llmReply : Except String String) : String :=
  if looksTimeSensitive query then
    timeSensitiveNotice ++ "\n\n" ++ capabilityReminder
  else
    match llmReply with
    | .error _ => capabilityReminder
    | .ok content =>
      let reply := strStrip content
      if routedViaLlm then
        reply ++ "\n\n" ++ routedNote ++ "\n\n" ++ capabilityReminder
      else
        reply ++ "\n\n" ++ capabilityReminder

/-- The fixed "no information" phrases of `_is_rag_no_answer`. -/
def ragNoAnswerSignals : List String :=
  ["documents provided do not contain", "i don\x27t know", "i do not know",
   "not contain information", "cannot find", "no information"]

/-- `_is_rag_no_answer`: empty answers and answers containing one of the
fixed phrases (case-insensitively) are non-answers. -/
def isRagNoAnswer (answer : String) : Bool :=
  if answer = "" then true
  else
    let lowered := strLower answer
    ragNoAnswerSignals.any fun s => strContains lowered s

/-- The tip appended by `_handle_rag_query` for queries mentioning 2026. -/
def ragTip : String := "\n\n💡 _For current events, ask for recommendations!_"

/-- `_handle_rag_query`: retrieve (oracle), append the 2026 tip, and
re-dispatch non-answers (and retrieval exceptions) through
`_handle_unknown(query, routed_via_llm=True)`. -/
def handleRagQuery (query : String) (ragAnswer fallbackLlm : Except String String) :
    String :=
  match ragAnswer with
  | .error _ => handleUnknown query true fallbackLlm
  | .ok answer0 =>
    let answer := if strContains query "2026" then answer0 ++ ragTip else answer0
    if isRagNoAnswer answer then handleUnknown query true fallbackLlm
    else answer

/-! ## Orchestrator (controller_agent.py `handle_query`) -/

/-- The per-turn oracles consumed by one `handle_query` call: outcomes of
the remote scan calls with their measured latencies, the classifier
completion, the outcome of the one dispatched handler call (for the
handlers treated as external collaborators), the RAG retrieval and fallback
completion, and the clock. -/
structure TurnOracles where
  preScanRemote : RemoteResult
  preScanElapsed : Nat
  classifyLlm : Except String String
  imageHandler : Except String String
  eventHandler : Except String String
  recommendationHandler : Except String String
  weatherHandler : Except String String
  timeHandler : Except String String
  ragAnswer : Except String String
  fallbackLlm : Except String String
  postScanRemote : RemoteResult
  postScanElapsed : Nat
  nowTs : String
  todayStr : String
  tomorrowStr : String

/-- The routing `if/elif` chain of `handle_query`: dispatch by intent label;
`.error` is an exception escaping the handler (caught by the outer `try`). -/
def routeDispatch (intent query : String) (o : TurnOracles) : Except String String :=
  if intent = "IMAGE_GENERATION" then o.imageHandler
  else if intent = "RAG_QUERY" then .ok (handleRagQuery query o.ragAnswer o.fallbackLlm)
  else if intent = "EVENT_QUERY_DB" then o.eventHandler
  else if intent = "RECOMMENDATION" then o.recommendationHandler
  else if intent = "WEATHER_QUERY" then o.weatherHandler
  else if intent = "TIME_QUERY" then o.timeHandler
  else .ok (handleUnknown query true o.fallbackLlm)

/-- One side of the `result["security"]` metadata. -/
structure ScanMeta where
  threat_detected : Bool
  threat_type : Option String
  risk_score : Option Int
  action_taken : String
  details : Option ScanDetails
deriving Repr, DecidableEq

/-- Project a scan result onto its reported metadata. -/
def toScanMeta (r : AIRSResponse) : ScanMeta :=
  { threat_detected := r.threat_detected, threat_type := r.threat_type,
    risk_score := r.risk_score, action_taken := r.action_taken,
    details := r.details }

/-- The `result["security"]` map: prompt-side and response-side metadata. -/
structure SecurityMeta where
  promptSide : ScanMeta
  responseSide : ScanMeta
deriving Repr, DecidableEq

/-- The dictionary returned by `handle_query`. -/
structure QueryResult where
  response : String
  intent : String
  security_status : Option String := none
  threat_type : Option String := none
  security_scanned : Option Bool := none
  scan_time_ms : Option Nat := none
  security : Option SecurityMeta := none
deriving Repr, DecidableEq

/-- Joint state of the controller's stateful collaborators: the chat agent
and the (optional) security agent. -/
structure ControllerState where
  chat : ChatAgentState
  security : Option SecurityAgentState
deriving Repr, DecidableEq

/-- `handle_query` after the pre-scan gate: context extraction,
classification, the `try` block (dispatch, post-scan, history, packaging)
and the top-level `except`.  `secCtx` carries the enabled security agent
together with its pre-scan result (`none` when scanning is off);
`origSec` is the controller's security field, returned unchanged on the
scanning-off paths. -/
def handleQueryAfterPreScan (chat0 : ChatAgentState)
    (secCtx : Option (SecurityAgentState × AIRSResponse))
    (origSec : Option SecurityAgentState)
    (userQuery : String) (o : TurnOracles) : QueryResult × ControllerState :=
  let chat1 := (extractEntities chat0 userQuery o.todayStr o.tomorrowStr).2.2
  let intent := classifyIntent o.classifyLlm
  match routeDispatch intent userQuery o with
  | .error e =>
    ({ response := "Error processing request: " ++ e, intent := "ERROR" },
     { chat := chat1,
       security := match secCtx with
                   | some (a, _) => some a
                   | none => origSec })
  | .ok response0 =>
    match secCtx with
    | some (agent, pScan) =>
      let rs := scanInteraction agent userQuery (some response0) o.postScanElapsed o.postScanRemote
      let filtered := rs.1.threat_detected && agent.block_on_threat
      let response1 :=
        if filtered then
          getSafeResponse rs.1.threat_type
            ++ "\n\n_Note: The original response was filtered for security reasons._"
        else response0
      let intent1 := if filtered then "SECURITY_FILTERED" else intent
      let chat2 := addToHistory chat1 userQuery response1 o.nowTs
      ({ response := response1, intent := intent1,
         security_scanned := some true,
         scan_time_ms := some (pScan.scan_time_ms.getD 0 + rs.1.scan_time_ms.getD 0),
         security := some { promptSide := toScanMeta pScan, responseSide := toScanMeta rs.1 } },
       { chat := chat2, security := some rs.2 })
    | none =>
      let chat2 := addToHistory chat1 userQuery response0 o.nowTs
      ({ response := response0, intent := intent },
       { chat := chat2, security := origSec })

/-- `handle_query`: the pre-scan gate (short-circuiting to
`SECURITY_BLOCKED` when a threat is detected and blocking is on), then the
rest of the pipeline. -/
def handleQuery (st : ControllerState) (userQuery userId : String)
    (o : TurnOracles) : QueryResult × ControllerState :=
  let _ := userId
  match st.security with
  | some agent =>
    if agent.enabled then
      let ps := scanInteraction agent userQuery none o.preScanElapsed o.preScanRemote
      if ps.1.threat_detected && agent.block_on_threat then
        ({ response := getSafeResponse ps.1.threat_type,
           intent := "SECURITY_BLOCKED",
           security_status := some "blocked",
           threat_type := ps.1.threat_type },
         { chat := st.chat, security := some ps.2 })
      else
        handleQueryAfterPreScan st.chat (some (ps.2, ps.1)) st.security userQuery o
    else
      handleQueryAfterPreScan st.chat none st.security userQuery o
  | none => handleQueryAfterPreScan st.chat none none userQuery o

example : classifyIntentPost "EVENT_QUERY_DB please" = "EVENT_QUERY_DB" := by decide
example : classifyIntentPost "BANANA" = "UNKNOWN" := by decide
example : classifyIntentPost " rag_query " = "RAG_QUERY" := by decide
example : isRagNoAnswer "The documents provided do not contain this information" = true := by
  decide

/-! ## Helper lemmas -/

theorem markActive_stats (s : SecurityAgentState) : (markActive s).stats = s.stats := by
  unfold markActive; split <;> rfl

theorem markActive_scanConfig (s : SecurityAgentState) :
    (markActive s).enable_prompt_scan = s.enable_prompt_scan
      ∧ (markActive s).enable_response_scan = s.enable_response_scan
      ∧ (markActive s).enabled = s.enabled
      ∧ (markActive s).block_on_threat = s.block_on_threat := by
  unfold markActive; split <;> exact ⟨rfl, rfl, rfl, rfl⟩

theorem updateStats_total (st : ScanStats) (r : AIRSResponse) (sp sr : Bool) :
    (updateStats st r sp sr).total_scans = st.total_scans + 1 := by
  unfold updateStats; split_ifs <;> rfl

theorem updateStats_prompts (st : ScanStats) (r : AIRSResponse) (sp sr : Bool) :
    (updateStats st r sp sr).prompts_scanned
      = st.prompts_scanned + (if sp then 1 else 0) := by
  unfold updateStats; split_ifs <;> rfl

theorem updateStats_responses (st : ScanStats) (r : AIRSResponse) (sp sr : Bool) :
    (updateStats st r sp sr).responses_scanned
      = st.responses_scanned + (if sr then 1 else 0) := by
  unfold updateStats; split_ifs <;> rfl

theorem updateStats_threats (st : ScanStats) (r : AIRSResponse) (sp sr : Bool) :
    (updateStats st r sp sr).threats_detected
      = st.threats_detected + (if r.threat_detected then 1 else 0) := by
  unfold updateStats; split_ifs <;> rfl

theorem updateStats_blocked (st : ScanStats) (r : AIRSResponse) (sp sr : Bool) :
    (updateStats st r sp sr).blocked_requests
      = st.blocked_requests + (if r.action_taken = "BLOCKED" then 1 else 0) := by
  unfold updateStats; split_ifs <;> rfl

theorem optGetD_eq_iff {o : Option String} {d v : String} (hdv : d ≠ v) :
    o.getD d = v ↔ o = some v := by
  cases o <;> simp [hdv]

/-! ## Claims about the scanner -/

/-- **C2.** On an enabled scanner with something to scan, every remote
failure (timeout, HTTP error, other exception, unparseable payload) fails
open: `is_safe = true`, `threat_detected = false`, and `action_taken` is
`TIMEOUT`, `ERROR`, `ERROR`, `PARSE_ERROR` respectively — never a blocking
result. -/
theorem scan_interaction_fail_open (s : SecurityAgentState) (prompt : String)
    (response : Option String) (ems : Nat)
    (hen : s.enabled = true)
    (hscan : scansPrompt s prompt = true ∨ scansResponse s response = true) :
    ((scanInteraction s prompt response ems .timeout).1.is_safe = true
      ∧ (scanInteraction s prompt response ems .timeout).1.threat_detected = false
      ∧ (scanInteraction s prompt response ems .timeout).1.action_taken = "TIMEOUT")
  ∧ (∀ code msg,
      (scanInteraction s prompt response ems (.httpError code msg)).1.is_safe = true
        ∧ (scanInteraction s prompt response ems (.httpError code msg)).1.threat_detected = false
        ∧ (scanInteraction s prompt response ems (.httpError code msg)).1.action_taken = "ERROR")
  ∧ (∀ msg,
      (scanInteraction s prompt response ems (.raises msg)).1.is_safe = true
        ∧ (scanInteraction s prompt response ems (.raises msg)).1.threat_detected = false
        ∧ (scanInteraction s prompt response ems (.raises msg)).1.action_taken = "ERROR")
  ∧ (∀ msg,
      (scanInteraction s prompt response ems (.returns (.malformed msg))).1.is_safe = true
        ∧ (scanInteraction s prompt response ems (.returns (.malformed msg))).1.threat_detected = false
        ∧ (scanInteraction s prompt response ems (.returns (.malformed msg))).1.action_taken
            = "PARSE_ERROR") := by
  have hskip : (!(scansPrompt s prompt) && !(scansResponse s response)) = false := by
    rcases hscan with h | h <;> simp [h]
  refine ⟨?_, fun code msg => ?_, fun msg => ?_, fun msg => ?_⟩ <;>
    simp [scanInteraction, hen, hskip, parseAirsResponse]

/-- Witness for C2 at a concrete enabled scanner. -/
theorem scan_interaction_fail_open_witness :
    (scanInteraction (mkSecurityAgent "key") "hello" none 3 .timeout).1.action_taken = "TIMEOUT"
  ∧ (scanInteraction (mkSecurityAgent "key") "hello" none 3
      (.returns (.malformed "boom"))).1.action_taken = "PARSE_ERROR" := by
  have h := scan_interaction_fail_open (mkSecurityAgent "key") "hello" none 3
    (by decide) (Or.inl (by decide))
  exact ⟨h.1.2.2, (h.2.2.2 "boom").2.2⟩

/-- The effective `action` used by `_parse_airs_response`: the `details`
action when truthy, else the top-level action (default `"allow"`). -/
def parseEffectiveAction (p : AirsPayload) : String :=
  match p.details.action with
  | some a => if a = "" then p.action.getD "allow" else a
  | none => p.action.getD "allow"

theorem categorySignal_iff (o : Option String) :
    ((match o with
      | some c => c != "" && strLower c != "benign"
      | none => false) = true)
      ↔ (∃ c, o = some c ∧ c ≠ "" ∧ strLower c ≠ "benign") := by
  cases o <;> simp [bne_iff_ne]

/-- **C5.** On a successfully parsed payload, `threat_detected` holds iff
one of the OR-ed signals does (non-empty threat list, status `"threat"`,
a truthy detection flag, a present non-empty category other than
`"benign"`, or a (truthy) action lowercasing to `"block"`); `is_safe` holds
unless a threat was detected and the action does not lowercase to
`"allow"`; and `action_taken` is `BLOCKED` / `LOGGED` / `ALLOW` by threat
verdict and block policy. -/
theorem parse_airs_signals (b : Bool) (p : AirsPayload) :
    ((parseAirsResponse b (.wellFormed p)).threat_detected = true ↔
      (p.threats ≠ []
        ∨ p.status = some "threat"
        ∨ (∃ kv, kv ∈ p.details.prompt_detected ∧ kv.2 = true)
        ∨ (∃ kv, kv ∈ p.details.response_detected ∧ kv.2 = true)
        ∨ (∃ c, p.details.category = some c ∧ c ≠ "" ∧ strLower c ≠ "benign")
        ∨ (parseEffectiveAction p ≠ "" ∧ strLower (parseEffectiveAction p) = "block")))
  ∧ ((parseAirsResponse b (.wellFormed p)).is_safe = true ↔
      ((parseAirsResponse b (.wellFormed p)).threat_detected = false
        ∨ strLower (parseEffectiveAction p) = "allow"))
  ∧ ((parseAirsResponse b (.wellFormed p)).threat_detected = true → b = true →
      (parseAirsResponse b (.wellFormed p)).action_taken = "BLOCKED")
  ∧ ((parseAirsResponse b (.wellFormed p)).threat_detected = true → b = false →
      (parseAirsResponse b (.wellFormed p)).action_taken = "LOGGED")
  ∧ ((parseAirsResponse b (.wellFormed p)).threat_detected = false →
      (parseAirsResponse b (.wellFormed p)).action_taken = "ALLOW") := by
  have h1 : (parseAirsResponse b (.wellFormed p)).threat_detected =
      (!p.threats.isEmpty
        || p.status.getD "unknown" == "threat"
        || (p.details.prompt_detected.map Prod.snd
            ++ p.details.response_detected.map Prod.snd).any id
        || (match p.details.category with
            | some c => c != "" && strLower c != "benign"
            | none => false)
        || (parseEffectiveAction p != "" && strLower (parseEffectiveAction p) == "block")) := rfl
  have hact : (parseAirsResponse b (.wellFormed p)).action_taken =
      (if (parseAirsResponse b (.wellFormed p)).threat_detected && b then "BLOCKED"
       else if (parseAirsResponse b (.wellFormed p)).threat_detected then "LOGGED"
       else "ALLOW") := rfl
  refine ⟨?_, ?_, ?_, ?_, ?_⟩
  · rw [h1, Bool.or_eq_true, Bool.or_eq_true, Bool.or_eq_true, Bool.or_eq_true]
    rw [show ((!p.threats.isEmpty) = true) ↔ p.threats ≠ [] from by
          cases p.threats <;> simp,
        show ((p.status.getD "unknown" == "threat") = true) ↔ p.status = some "threat" from by
          cases p.status <;> simp,
        categorySignal_iff,
        show ((parseEffectiveAction p != ""
              && strLower (parseEffectiveAction p) == "block") = true)
            ↔ (parseEffectiveAction p ≠ "" ∧ strLower (parseEffectiveAction p) = "block") from by
          simp [Bool.and_eq_true, bne_iff_ne, beq_iff_eq],
        show (((p.details.prompt_detected.map Prod.snd
              ++ p.details.response_detected.map Prod.snd).any id) = true)
            ↔ ((∃ kv, kv ∈ p.details.prompt_detected ∧ kv.2 = true)
                ∨ (∃ kv, kv ∈ p.details.response_detected ∧ kv.2 = true)) from by
          simp [List.any_eq_true, List.mem_append, List.mem_map]]
    simp only [or_assoc]
  · have h2 : (parseAirsResponse b (.wellFormed p)).is_safe
        = (!(parseAirsResponse b (.wellFormed p)).threat_detected
            || strLower (parseEffectiveAction p) == "allow") := rfl
    rw [h2]
    simp [Bool.or_eq_true, Bool.not_eq_true', beq_iff_eq]
  · intro h hb
    rw [hact, h, hb]; rfl
  · intro h hb
    rw [hact, h, hb]; rfl
  · intro h
    rw [hact, h]; rfl

/-- Witness for C5 at a concrete payload with a `"threat"` status. -/
theorem parse_airs_signals_witness :
    (parseAirsResponse true (.wellFormed { status := some "threat" })).threat_detected = true :=
  (parse_airs_signals true { status := some "threat" }).1.mpr (Or.inr (Or.inl rfl))

/-- **C6 counterexample.** A call to `scan_interaction` on an enabled
scanner that times out leaves every statistic unchanged (`total_scans`
stays 0), so the statistics are not updated on every call. -/
theorem scan_stats_counterexample :
    (mkSecurityAgent "key").stats.total_scans = 0
  ∧ (scanInteraction (mkSecurityAgent "key") "hello" none 3 .timeout).2.stats.total_scans = 0
  ∧ (scanInteraction (mkSecurityAgent "key") "hello" none 3 .timeout).2.stats
      = (mkSecurityAgent "key").stats := by
  refine ⟨rfl, rfl, rfl⟩

/-- **C6 amended.** On every call that actually obtains a remote payload
(enabled, something to scan, no transport failure — parse failures
included), the statistics are updated as described: `total_scans`
increments, `prompts_scanned`/`responses_scanned` increment according to
the sides scanned, `threats_detected` increments when a threat was
detected, and `blocked_requests` increments when `action_taken` is
`BLOCKED`.  Calls that skip or fail in transport leave the statistics
unchanged. -/
theorem scan_stats_update (s : SecurityAgentState) (prompt : String)
    (response : Option String) (ems : Nat) (pr : AirsPayloadResult)
    (hen : s.enabled = true)
    (hscan : scansPrompt s prompt = true ∨ scansResponse s response = true) :
    ((scanInteraction s prompt response ems (.returns pr)).2.stats.total_scans
        = s.stats.total_scans + 1)
  ∧ ((scanInteraction s prompt response ems (.returns pr)).2.stats.prompts_scanned
        = s.stats.prompts_scanned + (if scansPrompt s prompt then 1 else 0))
  ∧ ((scanInteraction s prompt response ems (.returns pr)).2.stats.responses_scanned
        = s.stats.responses_scanned + (if scansResponse s response then 1 else 0))
  ∧ ((scanInteraction s prompt response ems (.returns pr)).2.stats.threats_detected
        = s.stats.threats_detected
            + (if (scanInteraction s prompt response ems (.returns pr)).1.threat_detected
               then 1 else 0))
  ∧ ((scanInteraction s prompt response ems (.returns pr)).2.stats.blocked_requests
        = s.stats.blocked_requests
            + (if (scanInteraction s prompt response ems (.returns pr)).1.action_taken = "BLOCKED"
               then 1 else 0))
  ∧ ((scanInteraction s prompt response ems .timeout).2.stats = s.stats)
  ∧ (∀ code msg, (scanInteraction s prompt response ems (.httpError code msg)).2.stats = s.stats)
  ∧ (∀ msg, (scanInteraction s prompt response ems (.raises msg)).2.stats = s.stats) := by
  have hskip : (!(scansPrompt s prompt) && !(scansResponse s response)) = false := by
    rcases hscan with h | h <;> simp [h]
  refine ⟨?_, ?_, ?_, ?_, ?_, ?_, fun code msg => ?_, fun msg => ?_⟩ <;>
    simp [scanInteraction, hen, hskip, markActive_stats, updateStats_total,
      updateStats_prompts, updateStats_responses, updateStats_threats,
      updateStats_blocked]
  all_goals (split_ifs <;> rfl)

/-- Witness for C6 (amended) at a concrete scan that parses successfully. -/
theorem scan_stats_update_witness :
    (scanInteraction (mkSecurityAgent "key") "hello" none 3
        (.returns (.wellFormed {}))).2.stats.total_scans
      = (mkSecurityAgent "key").stats.total_scans + 1 :=
  (scan_stats_update (mkSecurityAgent "key") "hello" none 3 (.wellFormed {})
    (by decide) (Or.inl (by decide))).1

/-- **C7 counterexample.** A scanner whose activation status is in the
failure state `"timeout"` stays in that state after a subsequent call that
completes with a healthy remote response (the response parses with no
threat, `action_taken = "ALLOW"`), instead of transitioning to
`"active"`. -/
theorem activation_status_counterexample :
    (scanInteraction
        { api_key := "key", enabled := true, activation_status := "timeout" }
        "hello" none 3 (.returns (.wellFormed {}))).1.action_taken = "ALLOW"
  ∧ (scanInteraction
        { api_key := "key", enabled := true, activation_status := "timeout" }
        "hello" none 3 (.returns (.wellFormed {}))).2.activation_status = "timeout" := by
  refine ⟨rfl, rfl⟩

/-- **C7 amended.** On scanner timeout, the call returns
`action_taken = "TIMEOUT"` with `is_safe = true` and records activation
status `"timeout"`; a subsequent call that completes with a remote payload
transitions the activation status to `"active"` only from the `"pending"`
state — from any other state (including the failure states) a healthy call
leaves the status unchanged. -/
theorem scan_timeout_activation (s : SecurityAgentState) (prompt : String)
    (response : Option String) (ems : Nat)
    (hen : s.enabled = true)
    (hscan : scansPrompt s prompt = true ∨ scansResponse s response = true) :
    ((scanInteraction s prompt response ems .timeout).1.action_taken = "TIMEOUT")
  ∧ ((scanInteraction s prompt response ems .timeout).1.is_safe = true)
  ∧ ((scanInteraction s prompt response ems .timeout).2.activation_status = "timeout")
  ∧ (∀ pr, s.activation_status = "pending" →
      (scanInteraction s prompt response ems (.returns pr)).2.activation_status = "active")
  ∧ (∀ pr, s.activation_status ≠ "pending" →
      (scanInteraction s prompt response ems (.returns pr)).2.activation_status
        = s.activation_status) := by
  have hskip : (!(scansPrompt s prompt) && !(scansResponse s response)) = false := by
    rcases hscan with h | h <;> simp [h]
  refine ⟨?_, ?_, ?_, fun pr hp => ?_, fun pr hp => ?_⟩
  · simp [scanInteraction, hen, hskip]
  · simp [scanInteraction, hen, hskip]
  · simp [scanInteraction, hen, hskip]
  · simp [scanInteraction, hen, hskip, markActive, hp]
  · simp [scanInteraction, hen, hskip, markActive, hp]

/-- Witness for C7 (amended): a pending scanner with a healthy scan goes
active; a timed-out call reports `TIMEOUT`. -/
theorem scan_timeout_activation_witness :
    (scanInteraction (mkSecurityAgent "key") "hello" none 3 .timeout).1.action_taken = "TIMEOUT"
  ∧ (scanInteraction (mkSecurityAgent "key") "hello" none 3
      (.returns (.wellFormed {}))).2.activation_status = "active" := by
  have h := scan_timeout_activation (mkSecurityAgent "key") "hello" none 3
    (by decide) (Or.inl (by decide))
  exact ⟨h.1, h.2.2.2.1 (.wellFormed {}) (by decide)⟩

/-! ## Claims about the history store -/

theorem addToHistory_max_history (st : ChatAgentState) (q r ts : String) :
    (addToHistory st q r ts).max_history = st.max_history := rfl

theorem addToHistory_length_le (st : ChatAgentState) (q r ts : String)
    (hle : st.conversation_history.length ≤ st.max_history) :
    (addToHistory st q r ts).conversation_history.length ≤ st.max_history := by
  unfold addToHistory
  dsimp only
  split
  · simp
    omega
  · rename_i hgt
    simp at hgt ⊢
    omega

/-- **C8.** The history length never exceeds the configured maximum — for a
single `add_to_history` call and along any sequence of calls — and when an
insertion on a full history (of positive capacity) would exceed it, the
evicted entry is exactly the oldest one, the remaining entries keeping
their order. -/
theorem add_to_history_bounded_fifo (st : ChatAgentState) (q r ts : String)
    (calls : List (String × String × String))
    (hle : st.conversation_history.length ≤ st.max_history) :
    ((addToHistory st q r ts).conversation_history.length ≤ st.max_history)
  ∧ ((calls.foldl (fun s c => addToHistory s c.1 c.2.1 c.2.2) st).conversation_history.length
      ≤ st.max_history)
  ∧ (st.conversation_history.length = st.max_history → 0 < st.max_history →
      (addToHistory st q r ts).conversation_history
        = st.conversation_history.drop 1 ++ [⟨q, r, ts⟩]) := by
  refine ⟨addToHistory_length_le st q r ts hle, ?_, ?_⟩
  · induction calls generalizing st with
    | nil => simpa using hle
    | cons c rest ih =>
      have h1 := addToHistory_length_le st c.1 c.2.1 c.2.2 hle
      have h2 := ih (addToHistory st c.1 c.2.1 c.2.2)
        (by rw [addToHistory_max_history]; exact h1)
      simpa [addToHistory_max_history] using h2
  · intro hfull hpos
    unfold addToHistory
    dsimp only
    rw [if_pos (by simp; omega)]
    rcases hh : st.conversation_history with _ | ⟨e, rest⟩
    · rw [hh] at hfull; simp at hfull; omega
    · simp

/-- Witness for C8: a full two-slot history evicts its oldest entry. -/
theorem add_to_history_bounded_fifo_witness :
    (addToHistory
        { conversation_history := [⟨"q1", "r1", "t1"⟩, ⟨"q2", "r2", "t2"⟩],
          max_history := 2, last_active_date := none, last_active_location := "Singapore" }
        "q3" "r3" "t3").conversation_history
      = [⟨"q2", "r2", "t2"⟩, ⟨"q3", "r3", "t3"⟩] := by
  have h := add_to_history_bounded_fifo
    { conversation_history := [⟨"q1", "r1", "t1"⟩, ⟨"q2", "r2", "t2"⟩],
      max_history := 2, last_active_date := none, last_active_location := "Singapore" }
    "q3" "r3" "t3" [] (by decide)
  simpa using h.2.2 (by decide) (by decide)

/-! ## Claims about the intent classifier -/

/-- Modelled from the spec: the priority order the claim asserts for the
label-substring matching (the order in which the spec lists the closed
label set), for comparison with the source's `validIntents` order. -/
def claimedIntentOrder : List String :=
  ["EVENT_QUERY_DB", "RECOMMENDATION", "TIME_QUERY",
   "WEATHER_QUERY", "IMAGE_GENERATION", "RAG_QUERY", "UNKNOWN"]

/-- Modelled from the spec: classifier post-processing using the claim's
priority order instead of the source's. -/
def claimedClassifyPost (raw : String) : String :=
  let intent := strUpper (strStrip raw)
  match claimedIntentOrder.find? (fun v => strContains intent v) with
  | some v => v
  | none => "UNKNOWN"

/-- **C9 counterexample.** On a raw completion containing two labels, the
source checks `RECOMMENDATION` before `EVENT_QUERY_DB`, while the claim's
priority order would pick `EVENT_QUERY_DB`: the code's result differs from
the claimed one. -/
theorem classify_order_counterexample :
    classifyIntentPost "EVENT_QUERY_DB RECOMMENDATION" = "RECOMMENDATION"
  ∧ claimedClassifyPost "EVENT_QUERY_DB RECOMMENDATION" = "EVENT_QUERY_DB"
  ∧ classifyIntentPost "EVENT_QUERY_DB RECOMMENDATION"
      ≠ claimedClassifyPost "EVENT_QUERY_DB RECOMMENDATION" := by
  refine ⟨by decide, by decide, by decide⟩

/-- **C9 amended.** The classifier upper-cases the stripped raw output and
returns the first label of the closed set that occurs as a substring,
in the source's fixed priority order `RECOMMENDATION, EVENT_QUERY_DB,
RAG_QUERY, IMAGE_GENERATION, WEATHER_QUERY, TIME_QUERY, UNKNOWN`; if no
label matches, or the completion call fails, it returns `UNKNOWN`. -/
theorem classify_first_match (raw errMsg : String) :
    (classifyIntent (.error errMsg) = "UNKNOWN")
  ∧ (strContains (strUpper (strStrip raw)) "RECOMMENDATION" = true →
      classifyIntent (.ok raw) = "RECOMMENDATION")
  ∧ (strContains (strUpper (strStrip raw)) "RECOMMENDATION" = false →
      strContains (strUpper (strStrip raw)) "EVENT_QUERY_DB" = true →
      classifyIntent (.ok raw) = "EVENT_QUERY_DB")
  ∧ (strContains (strUpper (strStrip raw)) "RECOMMENDATION" = false →
      strContains (strUpper (strStrip raw)) "EVENT_QUERY_DB" = false →
      strContains (strUpper (strStrip raw)) "RAG_QUERY" = true →
      classifyIntent (.ok raw) = "RAG_QUERY")
  ∧ (strContains (strUpper (strStrip raw)) "RECOMMENDATION" = false →
      strContains (strUpper (strStrip raw)) "EVENT_QUERY_DB" = false →
      strContains (strUpper (strStrip raw)) "RAG_QUERY" = false →
      strContains (strUpper (strStrip raw)) "IMAGE_GENERATION" = true →
      classifyIntent (.ok raw) = "IMAGE_GENERATION")
  ∧ (strContains (strUpper (strStrip raw)) "RECOMMENDATION" = false →
      strContains (strUpper (strStrip raw)) "EVENT_QUERY_DB" = false →
      strContains (strUpper (strStrip raw)) "RAG_QUERY" = false →
      strContains (strUpper (strStrip raw)) "IMAGE_GENERATION" = false →
      strContains (strUpper (strStrip raw)) "WEATHER_QUERY" = true →
      classifyIntent (.ok raw) = "WEATHER_QUERY")
  ∧ (strContains (strUpper (strStrip raw)) "RECOMMENDATION" = false →
      strContains (strUpper (strStrip raw)) "EVENT_QUERY_DB" = false →
      strContains (strUpper (strStrip raw)) "RAG_QUERY" = false →
      strContains (strUpper (strStrip raw)) "IMAGE_GENERATION" = false →
      strContains (strUpper (strStrip raw)) "WEATHER_QUERY" = false →
      strContains (strUpper (strStrip raw)) "TIME_QUERY" = true →
      classifyIntent (.ok raw) = "TIME_QUERY")
  ∧ (strContains (strUpper (strStrip raw)) "RECOMMENDATION" = false →
      strContains (strUpper (strStrip raw)) "EVENT_QUERY_DB" = false →
      strContains (strUpper (strStrip raw)) "RAG_QUERY" = false →
      strContains (strUpper (strStrip raw)) "IMAGE_GENERATION" = false →
      strContains (strUpper (strStrip raw)) "WEATHER_QUERY" = false →
      strContains (strUpper (strStrip raw)) "TIME_QUERY" = false →
      classifyIntent (.ok raw) = "UNKNOWN") := by
  refine ⟨rfl, ?_, ?_, ?_, ?_, ?_, ?_, ?_⟩ <;> intros <;>
    simp [classifyIntent, classifyIntentPost, validIntents, *]
  all_goals (split <;> simp_all)

/-- Witness for C9 (amended): the spec's own example outputs. -/
theorem classify_first_match_witness :
    classifyIntent (.ok "EVENT_QUERY_DB please") = "EVENT_QUERY_DB"
  ∧ classifyIntent (.ok "BANANA") = "UNKNOWN" := by
  have h := classify_first_match "EVENT_QUERY_DB please" "e"
  have h2 := classify_first_match "BANANA" "e"
  exact ⟨h.2.2.1 (by decide) (by decide),
    h2.2.2.2.2.2.2.2 (by decide) (by decide) (by decide) (by decide) (by decide) (by decide)⟩

/-! ## Claims about the orchestrator -/

/-- A concrete oracle assignment used by the closed witness theorems. -/
def demoOracles : TurnOracles :=
  { preScanRemote := .returns (.wellFormed {}),
    preScanElapsed := 1,
    classifyLlm := .ok "UNKNOWN",
    imageHandler := .ok "img",
    eventHandler := .ok "events",
    recommendationHandler := .ok "rec",
    weatherHandler := .ok "weather",
    timeHandler := .ok "time",
    ragAnswer := .ok "answer",
    fallbackLlm := .ok "fallback",
    postScanRemote := .returns (.wellFormed {}),
    postScanElapsed := 1,
    nowTs := "2026-01-01T00:00:00",
    todayStr := "2026-01-01",
    tomorrowStr := "2026-01-02" }

/-- **C1.** With scanning enabled, a pre-scan that detects a threat under
`block_on_threat` makes `handle_query` return immediately: intent exactly
`SECURITY_BLOCKED`, the canned safe response for the detected threat type,
and the prior chat state (so no history entry).  The right-hand side
depends only on the pre-scan oracle fields, so the classifier, the
dispatch handlers, the post-scan and the clock are never consulted. -/
theorem handle_query_prescan_block (st : ControllerState) (agent : SecurityAgentState)
    (userQuery userId : String) (o : TurnOracles)
    (hsec : st.security = some agent) (hen : agent.enabled = true)
    (hblock : agent.block_on_threat = true)
    (hthreat : (scanInteraction agent userQuery none
        o.preScanElapsed o.preScanRemote).1.threat_detected = true) :
    (handleQuery st userQuery userId o =
      ({ response := getSafeResponse (scanInteraction agent userQuery none
            o.preScanElapsed o.preScanRemote).1.threat_type,
         intent := "SECURITY_BLOCKED",
         security_status := some "blocked",
         threat_type := (scanInteraction agent userQuery none
            o.preScanElapsed o.preScanRemote).1.threat_type },
       { chat := st.chat,
         security := some (scanInteraction agent userQuery none
            o.preScanElapsed o.preScanRemote).2 }))
  ∧ (∀ o2 : TurnOracles, o2.preScanRemote = o.preScanRemote →
      o2.preScanElapsed = o.preScanElapsed →
      handleQuery st userQuery userId o2 = handleQuery st userQuery userId o)
  ∧ (handleQuery st userQuery userId o).2.chat.conversation_history
      = st.chat.conversation_history := by
  have key : ∀ o3 : TurnOracles, o3.preScanRemote = o.preScanRemote →
      o3.preScanElapsed = o.preScanElapsed →
      handleQuery st userQuery userId o3 =
        ({ response := getSafeResponse (scanInteraction agent userQuery none
              o.preScanElapsed o.preScanRemote).1.threat_type,
           intent := "SECURITY_BLOCKED",
           security_status := some "blocked",
           threat_type := (scanInteraction agent userQuery none
              o.preScanElapsed o.preScanRemote).1.threat_type },
         { chat := st.chat,
           security := some (scanInteraction agent userQuery none
              o.preScanElapsed o.preScanRemote).2 }) := by
    intro o3 h1 h2
    simp [handleQuery, hsec, hen, hblock, h1, h2, hthreat]
  refine ⟨key o rfl rfl, fun o2 h1 h2 => (key o2 h1 h2).trans (key o rfl rfl).symm, ?_⟩
  rw [key o rfl rfl]

/-- Witness for C1 at a concrete blocking scanner and threat payload. -/
theorem handle_query_prescan_block_witness :
    (handleQuery
        { chat := mkChatAgent,
          security := some
            { api_key := "key", enabled := true,
              activation_status := "pending", block_on_threat := true } }
        "hi" "u"
        { demoOracles with
            preScanRemote := .returns (.wellFormed { status := some "threat" }) }).1.intent
      = "SECURITY_BLOCKED" := by
  rw [(handle_query_prescan_block
    { chat := mkChatAgent,
      security := some
        { api_key := "key", enabled := true,
          activation_status := "pending", block_on_threat := true } }
    { api_key := "key", enabled := true,
      activation_status := "pending", block_on_threat := true }
    "hi" "u"
    { demoOracles with
        preScanRemote := .returns (.wellFormed { status := some "threat" }) }
    rfl rfl rfl (by decide)).1]

/-- **C10.** On the pre-scan short-circuit path the conversational context
is completely untouched: the chat agent state (history,
`last_active_location`, `last_active_date`) after the call is exactly the
state before it, because context extraction is never reached. -/
theorem prescan_block_preserves_context (st : ControllerState) (agent : SecurityAgentState)
    (userQuery userId : String) (o : TurnOracles)
    (hsec : st.security = some agent) (hen : agent.enabled = true)
    (hblock : agent.block_on_threat = true)
    (hthreat : (scanInteraction agent userQuery none
        o.preScanElapsed o.preScanRemote).1.threat_detected = true) :
    (handleQuery st userQuery userId o).2.chat = st.chat := by
  simp [handleQuery, hsec, hen, hthreat, hblock]

/-- Witness for C10: a non-trivial chat state survives a blocked call
unchanged. -/
theorem prescan_block_preserves_context_witness :
    (handleQuery
        { chat := { conversation_history := [⟨"a", "b", "t0"⟩], max_history := 20,
                    last_active_date := some "2025-05-05", last_active_location := "Paris" },
          security := some
            { api_key := "key", enabled := true,
              activation_status := "pending", block_on_threat := true } }
        "hello in London today" "u"
        { demoOracles with
            preScanRemote := .returns (.wellFormed { status := some "threat" }) }).2.chat
      = { conversation_history := [⟨"a", "b", "t0"⟩], max_history := 20,
          last_active_date := some "2025-05-05", last_active_location := "Paris" } :=
  prescan_block_preserves_context
    { chat := { conversation_history := [⟨"a", "b", "t0"⟩], max_history := 20,
                last_active_date := some "2025-05-05", last_active_location := "Paris" },
      security := some
        { api_key := "key", enabled := true,
          activation_status := "pending", block_on_threat := true } }
    { api_key := "key", enabled := true,
      activation_status := "pending", block_on_threat := true }
    "hello in London today" "u"
    { demoOracles with
        preScanRemote := .returns (.wellFormed { status := some "threat" }) }
    rfl rfl rfl (by decide)

/-- **C4.** `handle_query` is a total function (the embedding returns a
payload on every input), and whenever the dispatched handler raises — the
only step of the pipeline that can raise in this code, since the
classifier and the scanner catch their own exceptions and context
extraction and history recording are total — and the pre-scan gate did not
already short-circuit, the returned payload is exactly
`{response: "Error processing request: <message>", intent: "ERROR"}`. -/
theorem handle_query_error_payload (st : ControllerState) (userQuery userId : String)
    (o : TurnOracles) (e : String)
    (hdisp : routeDispatch (classifyIntent o.classifyLlm) userQuery o = .error e)
    (hnb : ∀ agent, st.security = some agent → agent.enabled = true →
        ((scanInteraction agent userQuery none
            o.preScanElapsed o.preScanRemote).1.threat_detected = false
          ∨ agent.block_on_threat = false)) :
    (handleQuery st userQuery userId o).1 =
      { response := "Error processing request: " ++ e, intent := "ERROR" } := by
  rcases hsec : st.security with _ | agent
  · simp [handleQuery, hsec, handleQueryAfterPreScan, hdisp]
  · by_cases hen : agent.enabled
    · have hgate := hnb agent hsec hen
      have hcond : ((scanInteraction agent userQuery none
          o.preScanElapsed o.preScanRemote).1.threat_detected
            && agent.block_on_threat) = false := by
        rcases hgate with h | h <;> simp [h]
      simp [handleQuery, hsec, hen, hcond, handleQueryAfterPreScan, hdisp]
    · simp [handleQuery, hsec, hen, handleQueryAfterPreScan, hdisp]

/-- Witness for C4: a raising time handler yields the error payload. -/
theorem handle_query_error_payload_witness :
    (handleQuery { chat := mkChatAgent, security := none } "what time" "u"
        { demoOracles with classifyLlm := .ok "TIME_QUERY",
                           timeHandler := .error "boom" }).1
      = { response := "Error processing request: boom", intent := "ERROR" } :=
  handle_query_error_payload { chat := mkChatAgent, security := none }
    "what time" "u"
    { demoOracles with classifyLlm := .ok "TIME_QUERY", timeHandler := .error "boom" }
    "boom" rfl (fun _ h => nomatch h)

/-- **C3 counterexample.** When the RAG answer is one of the "no
information" phrases, the router does re-dispatch the query through the
fallback handler (the response is the fallback handler's output), but the
intent label in the returned result is still `RAG_QUERY` — not the
fallback's label as the claim states. -/
theorem rag_fallback_counterexample :
    (handleQuery { chat := mkChatAgent, security := none }
        "Tell me about Formula One history" "u"
        { demoOracles with
            classifyLlm := .ok "RAG_QUERY",
            ragAnswer := .ok "The documents provided do not contain this information",
            fallbackLlm := .ok "Here is a friendly general answer." }).1.response
      = handleUnknown "Tell me about Formula One history" true
          (.ok "Here is a friendly general answer.")
  ∧ (handleQuery { chat := mkChatAgent, security := none }
        "Tell me about Formula One history" "u"
        { demoOracles with
            classifyLlm := .ok "RAG_QUERY",
            ragAnswer := .ok "The documents provided do not contain this information",
            fallbackLlm := .ok "Here is a friendly general answer." }).1.intent
      = "RAG_QUERY" := by
  exact ⟨rfl, rfl⟩

/-- **C3 amended.** If the query routes to the RAG handler and the
retrieved answer (after the 2026 tip is appended, when applicable)
contains one of the fixed "no information" phrases, the router
re-dispatches through the fallback handler — the returned response is the
fallback handler's output — but the intent label in the returned result
remains `RAG_QUERY` (stated here with scanning disabled, where no
post-scan relabelling can occur). -/
theorem rag_no_answer_redispatch (st : ControllerState) (userQuery userId : String)
    (o : TurnOracles) (ans : String)
    (hsec : st.security = none)
    (hclass : classifyIntent o.classifyLlm = "RAG_QUERY")
    (hans : o.ragAnswer = .ok ans)
    (hnoans : isRagNoAnswer
        (if strContains userQuery "2026" then ans ++ ragTip else ans) = true) :
    (handleQuery st userQuery userId o).1.response
      = handleUnknown userQuery true o.fallbackLlm
  ∧ (handleQuery st userQuery userId o).1.intent = "RAG_QUERY" := by
  have hroute : routeDispatch "RAG_QUERY" userQuery o
      = .ok (handleUnknown userQuery true o.fallbackLlm) := by
    simp [routeDispatch, handleRagQuery, hans, hnoans]
  constructor <;> simp [handleQuery, hsec, handleQueryAfterPreScan, hroute, hclass]

/-- Witness for C3 (amended) at a concrete "no information" answer. -/
theorem rag_no_answer_redispatch_witness :
    (handleQuery { chat := mkChatAgent, security := none } "what about 2026 concerts" "u"
        { demoOracles with
            classifyLlm := .ok "RAG_QUERY",
            ragAnswer := .ok "I cannot find this in the knowledge base.",
            fallbackLlm := .ok "A brief friendly reply." }).1.intent = "RAG_QUERY" :=
  (rag_no_answer_redispatch { chat := mkChatAgent, security := none }
    "what about 2026 concerts" "u"
    { demoOracles with
        classifyLlm := .ok "RAG_QUERY",
        ragAnswer := .ok "I cannot find this in the knowledge base.",
        fallbackLlm := .ok "A brief friendly reply." }
    "I cannot find this in the knowledge base."
    rfl rfl rfl (by decide)).2
